import Mathlib

/-!
Verification of the amendment-detection core of the `verificador-boe`
repository: a shallow embedding in Lean 4 of the index locator
(`buscarArticuloEnIndice`), the amendment resolver
(`buscarModificacionesArticulo`) and the check-article orchestrator
(`comprobarModificacionArticulo`), together with theorems settling the
specification's claims about them.

JavaScript runtime semantics that the embedding makes explicit:
* absent object fields are `Option.none`;
* a present-but-empty string is falsy in JS guard positions
  (`item.titulo && …`, `modificacion.afectado && …`,
  `modificacion.referencia || …`), so those guards also test `≠ ""`;
* `String.prototype.includes` is case-sensitive substring containment;
* `new Date(s)` on an unparseable string yields an Invalid Date whose
  every numeric comparison is false; valid dates compare chronologically.
  We model this with `parseDate : String → Option Int`, order-faithful on
  ISO `YYYY-MM-DD` strings (the format the BOE API and the spec's
  scenarios use) and `none` on anything else, and comparisons that are
  `false` whenever a side is `none`.
-/

namespace BOE

/-- Character-list prefix test (building block for substring containment). -/
def empiezaCon : List Char → List Char → Bool
  | [], _ => true
  | _ :: _, [] => false
  | a :: as, b :: bs => a == b && empiezaCon as bs

/-- Substring search over character lists. -/
def incluyeAux (sub : List Char) : List Char → Bool
  | [] => sub.isEmpty
  | c :: t => empiezaCon sub (c :: t) || incluyeAux sub t

/-- Embedding of JS `s.includes(pat)`: case-sensitive literal substring
containment. -/
def incluye (s pat : String) : Bool := incluyeAux pat.data s.data

/-- Embedding of JS `new Date(s)` as used by the resolver: an ISO
`YYYY-MM-DD` string parses to an order-faithful integer encoding
(`y*10000 + m*100 + d`); anything else is the Invalid-Date sentinel
`none`. -/
def digitoA (c : Char) : Int := c.toNat - 48

def parseDate (s : String) : Option Int :=
  match s.data with
  | [y1, y2, y3, y4, g1, m1, m2, g2, d1, d2] =>
    if g1 == '-' && g2 == '-' && [y1, y2, y3, y4, m1, m2, d1, d2].all Char.isDigit then
      let yn := ((digitoA y1 * 10 + digitoA y2) * 10 + digitoA y3) * 10 + digitoA y4
      let mn := digitoA m1 * 10 + digitoA m2
      let dn := digitoA d1 * 10 + digitoA d2
      if 1 ≤ mn && mn ≤ 12 && 1 ≤ dn && dn ≤ 31 then
        some (yn * 10000 + mn * 100 + dn)
      else none
    else none
  | _ => none

/-- JS `a >= b` where `a` may be Invalid Date (`none`): false on `none`. -/
def optGe (a : Option Int) (b : Int) : Bool :=
  match a with
  | some x => x ≥ b
  | none => false

/-- JS `a > b` where either side may be Invalid Date: false if either is
`none`. -/
def optGt (a b : Option Int) : Bool :=
  match a, b with
  | some x, some y => x > y
  | _, _ => false

/-! ## The index tree (`IndexEntry`)

A node of the document outline returned by the BOE API: `tipo` (kind tag),
`titulo` (label, may be absent), `id`, and `items` (children, may be
absent). -/

/-- Index-tree node. `titulo` and `items` are `Option` because the JS code
guards against their absence (`item.titulo && …`, `item.items && …`). -/
inductive Item : Type where
  | mk (tipo : String) (titulo : Option String) (id : String) (items : Option (List Item)) : Item

/-- Kind tag of a node. -/
def Item.tipo : Item → String
  | .mk t _ _ _ => t

/-- Label of a node (absent fields are `none`). -/
def Item.titulo : Item → Option String
  | .mk _ ti _ _ => ti

/-- Stable identifier of a node. -/
def Item.idBloque : Item → String
  | .mk _ _ i _ => i

/-- Children of a node (absent field is `none`). -/
def Item.items : Item → Option (List Item)
  | .mk _ _ _ c => c

/-- The match predicate of `buscarArticuloEnIndice`, line by line from
`item.tipo === 'articulo' && item.titulo &&
item.titulo.includes("Artículo " + numeroArticulo)`; a present-but-empty
`titulo` is falsy in JS, hence the `!(s == "")` guard. -/
def coincide (num : String) (it : Item) : Bool :=
  it.tipo == "articulo" &&
    (match it.titulo with
     | some s => !(s == "") && incluye s ("Artículo " ++ num)
     | none => false)

/-- Embedding of the inner `buscarEnItems` closure of
`buscarArticuloEnIndice`: test each item, descend into a non-empty
`items` field, else continue with the remaining siblings. -/
def buscarEnItems (num : String) : List Item → Option Item
  | [] => none
  | Item.mk t ti i (some l) :: rest =>
    if coincide num (Item.mk t ti i (some l)) then some (Item.mk t ti i (some l))
    else
      match (if l.length > 0 then buscarEnItems num l else none) with
      | some x => some x
      | none => buscarEnItems num rest
  | Item.mk t ti i none :: rest =>
    if coincide num (Item.mk t ti i none) then some (Item.mk t ti i none)
    else buscarEnItems num rest

/-- Depth-first pre-order flattening of a forest (each node before its
children, children before later siblings); used to state the traversal
claims. -/
def preorden : List Item → List Item
  | [] => []
  | Item.mk t ti i (some l) :: rest =>
    Item.mk t ti i (some l) :: (preorden l ++ preorden rest)
  | Item.mk t ti i none :: rest =>
    Item.mk t ti i none :: preorden rest

/-- The index object returned by the API; its `items` field may be absent
(the JS loop runs over `items || []`). -/
structure Indice : Type where
  items : Option (List Item)

/-- Embedding of `buscarArticuloEnIndice(indice, numeroArticulo)`. -/
def buscarArticuloEnIndice (indice : Indice) (numeroArticulo : String) : Option Item :=
  buscarEnItems numeroArticulo (indice.items.getD [])

/-! ## The amendment analysis (`AmendmentRecord`) -/

/-- One amendment record. All four fields are guarded or defaulted in the
JS code, so the optional ones are `Option`; `fecha` is the raw date
string handed to `new Date`. -/
structure Modificacion : Type where
  afectado : Option String
  fecha : String
  referencia : Option String
  texto : Option String

/-- The inner `analisis` object; its `modificaciones` field may be
absent. -/
structure AnalisisInterno : Type where
  modificaciones : Option (List Modificacion)

/-- The analysis document; its `analisis` field may be absent. -/
structure Analisis : Type where
  analisis : Option AnalisisInterno

/-- One entry of the resolver's `detalles` list. -/
structure Detalle : Type where
  fecha : String
  referencia : String
  texto : String
deriving DecidableEq

/-- Result record of `buscarModificacionesArticulo`. -/
structure Resultado : Type where
  modificado : Bool
  fechaUltimaModificacion : Option String
  detalles : List Detalle
deriving DecidableEq

/-- JS `modificacion.afectado && modificacion.afectado.includes(articuloId)`:
an absent or empty (falsy) `afectado` never matches. -/
def afectaArticulo (articuloId : String) (m : Modificacion) : Bool :=
  match m.afectado with
  | some af => !(af == "") && incluye af articuloId
  | none => false

/-- A record qualifies when it affects the article and its date parses and
is on or after the reference date (`new Date(m.fecha) >= fechaReferencia`). -/
def califica (articuloId : String) (fechaReferencia : Int) (m : Modificacion) : Bool :=
  afectaArticulo articuloId m && optGe (parseDate m.fecha) fechaReferencia

/-- JS `x || 'No disponible'`: absent or empty string falls back to the
placeholder. -/
def oNoDisponible : Option String → String
  | some v => if v == "" then "No disponible" else v
  | none => "No disponible"

/-- The `detalles` entry pushed for a qualifying record. -/
def aDetalle (m : Modificacion) : Detalle :=
  { fecha := m.fecha
    referencia := oNoDisponible m.referencia
    texto := oNoDisponible m.texto }

/-- The running-maximum update on `fechaUltimaModificacion`:
`if (!resultado.fechaUltimaModificacion || fechaMod > new Date(resultado.fechaUltimaModificacion))`
replaces the stored date, else keeps it (falsy empty string also
replaces). -/
def actualizaMax (old : Option String) (f : String) : String :=
  match old with
  | none => f
  | some o => if o == "" || optGt (parseDate f) (parseDate o) then f else o

/-- One iteration of the resolver's `for` loop over `modificaciones`. -/
def paso (articuloId : String) (fechaReferencia : Int) (r : Resultado) (m : Modificacion) : Resultado :=
  if afectaArticulo articuloId m then
    if optGe (parseDate m.fecha) fechaReferencia then
      { modificado := true
        fechaUltimaModificacion := some (actualizaMax r.fechaUltimaModificacion m.fecha)
        detalles := r.detalles ++ [aDetalle m] }
    else r
  else r

/-- The resolver's initial `resultado` object. -/
def resultadoInicial : Resultado :=
  { modificado := false, fechaUltimaModificacion := none, detalles := [] }

/-- Embedding of `buscarModificacionesArticulo(analisis, articuloId,
fechaReferencia)`: return the initial result when the amendments
collection is missing, else fold the loop body over it. -/
def buscarModificacionesArticulo (a : Analisis) (articuloId : String) (fechaReferencia : Int) : Resultado :=
  match a.analisis with
  | none => resultadoInicial
  | some interno =>
    match interno.modificaciones with
    | none => resultadoInicial
    | some mods => mods.foldl (paso articuloId fechaReferencia) resultadoInicial

/-- The amendments list an analysis carries (empty when absent); used to
state the claims uniformly. -/
def modificacionesDe (a : Analisis) : List Modificacion :=
  match a.analisis with
  | none => []
  | some interno => interno.modificaciones.getD []

/-- JS `a <= b` on possibly-invalid dates: false if either side is
`none`. -/
def optLe (a b : Option Int) : Bool :=
  match a, b with
  | some x, some y => x ≤ y
  | _, _ => false

/-- The running maximum the resolver's loop maintains in
`fechaUltimaModificacion`, as a standalone recursion over the qualifying
date strings (in scan order): fold `actualizaMax` from the left. -/
def runMax (acc : Option String) : List String → Option String
  | [] => acc
  | f :: fs => runMax (some (actualizaMax acc f)) fs

/-! ## The orchestrator (`comprobarModificacionArticulo`)

The two external fetches (`obtenerIndice`, `obtenerAnalisisLey`) are passed
in as `Except` values: `.error e` stands for the awaited call throwing with
message `e`.  The JS function's three object shapes become one inductive. -/

/-- The orchestrator's result object: not-found (with `mensaje`), caught
failure (with `error`), or the full success record. -/
inductive CheckResult : Type where
  | noEncontrado (mensaje : String) : CheckResult
  | fallo (error : String) : CheckResult
  | ok (articuloId : String) (titulo : Option String) (modificado : Bool)
      (fechaUltimaModificacion : Option String) (detallesModificacion : List Detalle) : CheckResult
deriving DecidableEq

/-- The `encontrado` field of the result object. -/
def CheckResult.encontrado : CheckResult → Bool
  | .ok .. => true
  | _ => false

/-- The `error` field of the result object (absent on the other shapes). -/
def CheckResult.error : CheckResult → Option String
  | .fallo e => some e
  | _ => none

/-- Embedding of `comprobarModificacionArticulo(docId, numeroArticulo,
fechaReferencia)`.  A failing fetch short-circuits to the `catch` branch,
which returns `{encontrado: false, error: error.message}`; the analysis
fetch is only consulted after the article is found. -/
def comprobarModificacionArticulo (docId numeroArticulo : String) (fechaReferencia : Int)
    (indiceRes : Except String Indice) (analisisRes : Except String Analisis) : CheckResult :=
  match indiceRes with
  | .error e => .fallo e
  | .ok indice =>
    match buscarArticuloEnIndice indice numeroArticulo with
    | none => .noEncontrado ("No se encontró el artículo " ++ numeroArticulo ++ " en el documento " ++ docId)
    | some articulo =>
      match analisisRes with
      | .error e => .fallo e
      | .ok analisis =>
        let modificaciones := buscarModificacionesArticulo analisis articulo.idBloque fechaReferencia
        .ok articulo.idBloque articulo.titulo modificaciones.modificado
          modificaciones.fechaUltimaModificacion modificaciones.detalles

/-! ## Helper lemmas: the locator is the first pre-order match -/

set_option maxRecDepth 8000 in
/-- The recursive search equals `find?` over the pre-order flattening. -/
theorem buscarEnItems_eq_find? (num : String) (l : List Item) :
    buscarEnItems num l = (preorden l).find? (coincide num) := by
  induction l using buscarEnItems.induct num with
  | case1 => simp [buscarEnItems, preorden]
  | case2 t ti i l rest h =>
    simp [buscarEnItems, preorden, h, List.find?_cons_of_pos]
  | case3 t ti i l rest h x hsub ih =>
    by_cases hl : l.length > 0
    · rw [dif_pos hl] at hsub
      simp [buscarEnItems, preorden, h, hl, hsub, List.find?_cons_of_neg,
        List.find?_append, ← ih]
    · rw [dif_neg hl] at hsub
      exact absurd hsub (by simp)
  | case4 t ti i l rest h hsub ih ih2 =>
    have hnone : (preorden l).find? (coincide num) = none := by
      by_cases hl : l.length > 0
      · rw [dif_pos hl] at hsub
        rw [← ih, hsub]
      · have hnil : l = [] := List.length_eq_zero.mp (Nat.eq_zero_of_not_pos hl)
        subst hnil
        simp [preorden]
    have hbe : buscarEnItems num l = none := by
      rw [ih, hnone]
    have hL : buscarEnItems num (Item.mk t ti i (some l) :: rest) = buscarEnItems num rest := by
      rw [buscarEnItems.eq_2, if_neg h, hbe, ite_self]
    have hR : (preorden (Item.mk t ti i (some l) :: rest)).find? (coincide num)
        = (preorden rest).find? (coincide num) := by
      have hp : preorden (Item.mk t ti i (some l) :: rest)
          = Item.mk t ti i (some l) :: (preorden l ++ preorden rest) := by
        simp [preorden]
      rw [hp, List.find?_cons_of_neg _ h, List.find?_append, hnone, Option.none_or]
    rw [hL, hR, ih2]
  | case5 t ti i rest h =>
    simp [buscarEnItems, preorden, h, List.find?_cons_of_pos]
  | case6 t ti i rest h ih =>
    simp [buscarEnItems, preorden, h, List.find?_cons_of_neg, ih]

/-- `find?` is the head of the filtered list. -/
theorem find?_eq_head?_filter {α : Type} (p : α → Bool) (l : List α) :
    l.find? p = (l.filter p).head? := by
  induction l with
  | nil => rfl
  | cons a t ih =>
    rw [List.filter_cons]
    by_cases h : p a
    · rw [if_pos h, List.find?_cons_of_pos _ h, List.head?_cons]
    · rw [if_neg h, List.find?_cons_of_neg _ h, ih]

/-! ## Helper lemmas: the resolver as filter/map/running-max -/

/-- The loop body as a conditional update keyed on the combined
qualifying test. -/
theorem paso_eq (articuloId : String) (ref : Int) (r : Resultado) (m : Modificacion) :
    paso articuloId ref r m =
      if califica articuloId ref m then
        { modificado := true
          fechaUltimaModificacion := some (actualizaMax r.fechaUltimaModificacion m.fecha)
          detalles := r.detalles ++ [aDetalle m] }
      else r := by
  unfold paso califica
  by_cases h1 : afectaArticulo articuloId m <;>
    by_cases h2 : optGe (parseDate m.fecha) ref <;>
      simp [h1, h2]

/-- The whole loop, from any accumulator: `modificado` is an `any`, the
date is the running maximum over the qualifying dates, `detalles` is the
mapped filter. -/
theorem foldl_paso_spec (articuloId : String) (ref : Int) (mods : List Modificacion) :
    ∀ r : Resultado,
      mods.foldl (paso articuloId ref) r =
        { modificado := r.modificado || mods.any (califica articuloId ref)
          fechaUltimaModificacion :=
            runMax r.fechaUltimaModificacion ((mods.filter (califica articuloId ref)).map (·.fecha))
          detalles := r.detalles ++ (mods.filter (califica articuloId ref)).map aDetalle } := by
  induction mods with
  | nil => intro r; simp [runMax]
  | cons m t ih =>
    intro r
    rw [List.foldl_cons, paso_eq]
    by_cases hc : califica articuloId ref m
    · rw [if_pos hc, ih]
      simp [List.filter_cons, List.any_cons, hc, runMax]
    · rw [if_neg hc, ih]
      simp [List.filter_cons, List.any_cons, hc]

/-- The resolver is this loop started on the initial result, over the
(possibly defaulted-to-empty) amendments list. -/
theorem buscarModificaciones_eq_foldl (a : Analisis) (articuloId : String) (ref : Int) :
    buscarModificacionesArticulo a articuloId ref =
      (modificacionesDe a).foldl (paso articuloId ref) resultadoInicial := by
  obtain ⟨ai⟩ := a
  unfold buscarModificacionesArticulo modificacionesDe
  cases ai with
  | none => rfl
  | some interno =>
    obtain ⟨mo⟩ := interno
    cases mo with
    | none => rfl
    | some mods => rfl

/-- Closed form of the resolver. -/
theorem resolver_spec (a : Analisis) (articuloId : String) (ref : Int) :
    buscarModificacionesArticulo a articuloId ref =
      { modificado := (modificacionesDe a).any (califica articuloId ref)
        fechaUltimaModificacion :=
          runMax none (((modificacionesDe a).filter (califica articuloId ref)).map (·.fecha))
        detalles := ((modificacionesDe a).filter (califica articuloId ref)).map aDetalle } := by
  rw [buscarModificaciones_eq_foldl, foldl_paso_spec]
  simp [resultadoInicial]

/-! ## Helper lemmas: the running maximum is a true maximum -/

theorem parseDate_empty : parseDate "" = none := by decide

theorem optLe_trans {a b c : Option Int} (h1 : optLe a b = true) (h2 : optLe b c = true) :
    optLe a c = true := by
  cases a <;> cases b <;> cases c <;> simp [optLe] at *
  omega

/-- When both candidates parse, the update step keeps a date at least as
late as either. -/
theorem actualizaMax_ge (f g : String) (hf : (parseDate f).isSome = true)
    (hg : (parseDate g).isSome = true) :
    (parseDate (actualizaMax (some f) g)).isSome = true ∧
    optLe (parseDate f) (parseDate (actualizaMax (some f) g)) = true ∧
    optLe (parseDate g) (parseDate (actualizaMax (some f) g)) = true := by
  obtain ⟨vf, hvf⟩ := Option.isSome_iff_exists.mp hf
  obtain ⟨vg, hvg⟩ := Option.isSome_iff_exists.mp hg
  have hfne : (f == "") = false := by
    by_cases hbe : f = ""
    · subst hbe
      rw [parseDate_empty] at hvf
      cases hvf
    · simp [hbe]
  have hred : actualizaMax (some f) g
      = if (f == "" || optGt (parseDate g) (parseDate f)) = true then g else f := rfl
  rw [hred, hfne, Bool.false_or]
  by_cases h : optGt (parseDate g) (parseDate f) = true
  · rw [if_pos h]
    rw [hvf, hvg] at h ⊢
    simp [optGt] at h
    simp [optLe, hvg]
    omega
  · rw [if_neg h]
    rw [hvf, hvg] at h ⊢
    simp [optGt] at h
    simp [optLe, hvf]
    omega

/-- The update step returns one of its two candidates. -/
theorem actualizaMax_some_cases (f g : String) :
    actualizaMax (some f) g = g ∨ actualizaMax (some f) g = f := by
  have hred : actualizaMax (some f) g
      = if (f == "" || optGt (parseDate g) (parseDate f)) = true then g else f := rfl
  rw [hred]
  by_cases h : (f == "" || optGt (parseDate g) (parseDate f)) = true
  · left; rw [if_pos h]
  · right; rw [if_neg h]

/-- The running maximum from a seeded accumulator: it lands in the
accumulator-or-list. -/
theorem runMax_mem (fs : List String) : ∀ f : String,
    ∃ r, runMax (some f) fs = some r ∧ (r = f ∨ r ∈ fs) := by
  induction fs with
  | nil => intro f; exact ⟨f, rfl, Or.inl rfl⟩
  | cons g t ih =>
    intro f
    obtain ⟨r, hr, hm⟩ := ih (actualizaMax (some f) g)
    refine ⟨r, by rw [runMax, hr], ?_⟩
    rcases hm with h | h
    · rcases actualizaMax_some_cases f g with hc | hc
      · right
        rw [h, hc]
        exact List.mem_cons_self _ _
      · left
        rw [h, hc]
    · right
      exact List.mem_cons_of_mem _ h

/-- With every date parsing, the running maximum dominates the seed and
every list element. -/
theorem runMax_max (fs : List String) : ∀ f : String,
    (parseDate f).isSome = true →
    (∀ x ∈ fs, (parseDate x).isSome = true) →
    ∃ r, runMax (some f) fs = some r ∧ optLe (parseDate f) (parseDate r) = true ∧
      ∀ x ∈ fs, optLe (parseDate x) (parseDate r) = true := by
  induction fs with
  | nil =>
    intro f hf _
    obtain ⟨vf, hvf⟩ := Option.isSome_iff_exists.mp hf
    exact ⟨f, rfl, by simp [optLe, hvf], by simp⟩
  | cons g t ih =>
    intro f hf hall
    have hg : (parseDate g).isSome = true := hall g (List.mem_cons_self _ _)
    obtain ⟨hsacc, hfacc, hgacc⟩ := actualizaMax_ge f g hf hg
    obtain ⟨r, hr, haccr, hallr⟩ :=
      ih (actualizaMax (some f) g) hsacc (fun x hx => hall x (List.mem_cons_of_mem _ hx))
    refine ⟨r, by rw [runMax, hr], optLe_trans hfacc haccr, ?_⟩
    intro x hx
    rcases List.mem_cons.mp hx with hx | hx
    · subst hx
      exact optLe_trans hgacc haccr
    · exact hallr x hx

/-- The resolver's running maximum, started from `none`, is a true
maximum of the qualifying dates when all of them parse, and is `none`
exactly on the empty list. -/
theorem runMax_none_spec (fs : List String)
    (hall : ∀ x ∈ fs, (parseDate x).isSome = true) :
    (match runMax none fs with
     | some r => r ∈ fs ∧ ∀ x ∈ fs, optLe (parseDate x) (parseDate r) = true
     | none => fs = []) := by
  cases fs with
  | nil => simp [runMax]
  | cons f t =>
    have hstep : runMax none (f :: t) = runMax (some f) t := by
      rw [runMax]
      rfl
    have hf : (parseDate f).isSome = true := hall f (List.mem_cons_self _ _)
    obtain ⟨r, hr, hm⟩ := runMax_mem t f
    obtain ⟨r', hr', hfr', hallr'⟩ :=
      runMax_max t f hf (fun x hx => hall x (List.mem_cons_of_mem _ hx))
    have hrr : r = r' := by
      rw [hr] at hr'
      exact Option.some_inj.mp hr'
    subst hrr
    rw [hstep, hr]
    refine ⟨?_, ?_⟩
    · rcases hm with h | h
      · subst h; exact List.mem_cons_self _ _
      · exact List.mem_cons_of_mem _ h
    · intro x hx
      rcases List.mem_cons.mp hx with hx | hx
      · subst hx; exact hfr'
      · exact hallr' x hx

/-- Every qualifying record's date parses (qualification requires the
date comparison to succeed). -/
theorem califica_parseDate_isSome (articuloId : String) (ref : Int) (m : Modificacion)
    (h : califica articuloId ref m = true) : (parseDate m.fecha).isSome = true := by
  unfold califica optGe at h
  rcases hp : parseDate m.fecha with _ | v
  · rw [hp] at h
    simp at h
  · rfl

/-- `any` succeeds exactly when the filtered list is non-empty. -/
theorem any_eq_not_isEmpty_filter {α : Type} (p : α → Bool) (l : List α) :
    l.any p = !(l.filter p).isEmpty := by
  induction l with
  | nil => rfl
  | cons a t ih =>
    by_cases h : p a <;> simp [List.filter_cons, List.any_cons, h, ih]

/-! ## The claims -/

/-- C1: for every analysis, target article id and reference date, the
Amendment Resolver reports `modificado` exactly when at least one
amendment record qualifies, its `fechaUltimaModificacion` is the loop's
running maximum over the qualifying dates (updated only on strict
greater-than, so the first-seen record is kept among equal maxima), that
value is a qualifying record's date that no qualifying record strictly
exceeds, and it is `none` exactly when nothing qualifies. -/
theorem c1_resolutor_modificado_y_fecha_maxima (a : Analisis) (articuloId : String) (ref : Int) :
    (buscarModificacionesArticulo a articuloId ref).modificado
        = !((modificacionesDe a).filter (califica articuloId ref)).isEmpty
    ∧ (buscarModificacionesArticulo a articuloId ref).fechaUltimaModificacion
        = runMax none (((modificacionesDe a).filter (califica articuloId ref)).map (·.fecha))
    ∧ (match (buscarModificacionesArticulo a articuloId ref).fechaUltimaModificacion with
       | some f => f ∈ ((modificacionesDe a).filter (califica articuloId ref)).map (·.fecha)
           ∧ ∀ g ∈ ((modificacionesDe a).filter (califica articuloId ref)).map (·.fecha),
               optLe (parseDate g) (parseDate f) = true
       | none => ((modificacionesDe a).filter (califica articuloId ref)).map (·.fecha) = []) := by
  rw [resolver_spec]
  refine ⟨any_eq_not_isEmpty_filter _ _, rfl, ?_⟩
  apply runMax_none_spec
  intro x hx
  obtain ⟨m, hm, rfl⟩ := List.mem_map.mp hx
  exact califica_parseDate_isSome articuloId ref m (List.of_mem_filter hm)

/-- C5: a record whose `afectado` contains the target article id and
whose date parses to exactly the reference date qualifies — the boundary
is inclusive — and makes the resolver report `modificado`. -/
theorem c5_frontera_inclusiva (a : Analisis) (articuloId : String) (ref : Int)
    (m : Modificacion) (hmem : m ∈ modificacionesDe a)
    (haf : afectaArticulo articuloId m = true)
    (hfecha : parseDate m.fecha = some ref) :
    califica articuloId ref m = true
    ∧ (buscarModificacionesArticulo a articuloId ref).modificado = true := by
  have hc : califica articuloId ref m = true := by
    unfold califica optGe
    rw [haf, hfecha]
    simp
  refine ⟨hc, ?_⟩
  rw [resolver_spec]
  exact List.any_eq_true.mpr ⟨m, hmem, hc⟩

/-- Witness for C5 at the spec's scenario-style input: one amendment
dated exactly on the reference date. -/
theorem c5_frontera_inclusiva_witness :
    califica "a51" 20200101 ⟨some "a51", "2020-01-01", none, none⟩ = true
    ∧ (buscarModificacionesArticulo ⟨some ⟨some [⟨some "a51", "2020-01-01", none, none⟩]⟩⟩
         "a51" 20200101).modificado = true :=
  c5_frontera_inclusiva ⟨some ⟨some [⟨some "a51", "2020-01-01", none, none⟩]⟩⟩ "a51" 20200101
    ⟨some "a51", "2020-01-01", none, none⟩ (List.mem_cons_self _ _) (by decide) (by decide)

/-- C6: the `detalles` list is exactly one entry per qualifying record,
in the amendments collection's original scan order (a filter of it, not a
date-sorted copy), with `referencia` and `texto` falling back to
"No disponible" when the field is absent. -/
theorem c6_detalles_orden_y_defecto (a : Analisis) (articuloId : String) (ref : Int) :
    (buscarModificacionesArticulo a articuloId ref).detalles
        = ((modificacionesDe a).filter (califica articuloId ref)).map
            (fun m => { fecha := m.fecha
                        referencia := oNoDisponible m.referencia
                        texto := oNoDisponible m.texto })
    ∧ oNoDisponible none = "No disponible" := by
  refine ⟨?_, rfl⟩
  rw [resolver_spec]
  exact rfl

/-- C7: an analysis with no `analisis` field, or no `modificaciones`
field inside it, resolves to the initial
`{modificado: false, fechaUltimaModificacion: null, detalles: []}`
(totality of the Lean function rules out any raised error). -/
theorem c7_sin_coleccion_de_modificaciones (articuloId : String) (ref : Int) :
    buscarModificacionesArticulo ⟨none⟩ articuloId ref
        = { modificado := false, fechaUltimaModificacion := none, detalles := [] }
    ∧ buscarModificacionesArticulo ⟨some ⟨none⟩⟩ articuloId ref
        = { modificado := false, fechaUltimaModificacion := none, detalles := [] } :=
  ⟨rfl, rfl⟩

/-- C8: a record whose date string does not parse never qualifies, and
deleting it from the amendments collection leaves the resolver's whole
output unchanged — the remaining records are still processed. -/
theorem c8_fecha_no_analizable_excluida (articuloId : String) (ref : Int)
    (l1 l2 : List Modificacion) (m : Modificacion)
    (_haf : afectaArticulo articuloId m = true)
    (hbad : parseDate m.fecha = none) :
    califica articuloId ref m = false
    ∧ buscarModificacionesArticulo ⟨some ⟨some (l1 ++ m :: l2)⟩⟩ articuloId ref
        = buscarModificacionesArticulo ⟨some ⟨some (l1 ++ l2)⟩⟩ articuloId ref := by
  have hnc : califica articuloId ref m = false := by
    unfold califica optGe
    rw [hbad]
    simp
  refine ⟨hnc, ?_⟩
  have hid : ∀ r, paso articuloId ref r m = r := by
    intro r
    rw [paso_eq, hnc]
    simp
  rw [buscarModificaciones_eq_foldl, buscarModificaciones_eq_foldl]
  show (l1 ++ m :: l2).foldl (paso articuloId ref) resultadoInicial
      = (l1 ++ l2).foldl (paso articuloId ref) resultadoInicial
  rw [List.foldl_append, List.foldl_append, List.foldl_cons, hid]

/-- Witness for C8: a garbage date string between two valid records is
ignored while both others are still counted. -/
theorem c8_fecha_no_analizable_excluida_witness :
    califica "a51" 0 ⟨some "a51", "fecha-invalida", none, none⟩ = false
    ∧ buscarModificacionesArticulo
        ⟨some ⟨some [⟨some "a51", "2020-01-01", none, none⟩,
                     ⟨some "a51", "fecha-invalida", none, none⟩,
                     ⟨some "a51", "2020-06-01", none, none⟩]⟩⟩ "a51" 0
      = buscarModificacionesArticulo
        ⟨some ⟨some [⟨some "a51", "2020-01-01", none, none⟩,
                     ⟨some "a51", "2020-06-01", none, none⟩]⟩⟩ "a51" 0 :=
  c8_fecha_no_analizable_excluida "a51" 0
    [⟨some "a51", "2020-01-01", none, none⟩] [⟨some "a51", "2020-06-01", none, none⟩]
    ⟨some "a51", "fecha-invalida", none, none⟩ (by decide) (by decide)

/-- C2: if the index fetch throws, or the index fetch succeeds, the
article is located and then the analysis fetch throws, the orchestrator
catches the failure and returns a result object with `encontrado = false`
and the `error` field set to the failure's message; being a total Lean
function, it always returns a result object, never a raised failure. -/
theorem c2_orquestador_atrapa_fallos (docId numeroArticulo : String) (ref : Int)
    (ind : Indice) (ar : Except String Analisis) (e : String)
    (hfound : (buscarArticuloEnIndice ind numeroArticulo).isSome = true) :
    (comprobarModificacionArticulo docId numeroArticulo ref (.error e) ar).encontrado = false
    ∧ (comprobarModificacionArticulo docId numeroArticulo ref (.error e) ar).error = some e
    ∧ (comprobarModificacionArticulo docId numeroArticulo ref (.ok ind) (.error e)).encontrado = false
    ∧ (comprobarModificacionArticulo docId numeroArticulo ref (.ok ind) (.error e)).error = some e := by
  obtain ⟨art, hart⟩ := Option.isSome_iff_exists.mp hfound
  refine ⟨rfl, rfl, ?_, ?_⟩ <;>
    simp [comprobarModificacionArticulo, hart, CheckResult.encontrado, CheckResult.error]

/-- Witness for C2: a concrete one-article index with both failure
shapes. -/
theorem c2_orquestador_atrapa_fallos_witness :
    (comprobarModificacionArticulo "BOE-A-1889-4763" "51" 20190101 (.error "Network Error")
        (.ok ⟨none⟩)).encontrado = false
    ∧ (comprobarModificacionArticulo "BOE-A-1889-4763" "51" 20190101 (.error "Network Error")
        (.ok ⟨none⟩)).error = some "Network Error"
    ∧ (comprobarModificacionArticulo "BOE-A-1889-4763" "51" 20190101
        (.ok ⟨some [Item.mk "articulo" (some "Artículo 51") "a51" none]⟩)
        (.error "Network Error")).encontrado = false
    ∧ (comprobarModificacionArticulo "BOE-A-1889-4763" "51" 20190101
        (.ok ⟨some [Item.mk "articulo" (some "Artículo 51") "a51" none]⟩)
        (.error "Network Error")).error = some "Network Error" :=
  c2_orquestador_atrapa_fallos "BOE-A-1889-4763" "51" 20190101
    ⟨some [Item.mk "articulo" (some "Artículo 51") "a51" none]⟩ (.ok ⟨none⟩) "Network Error"
    (by simp [buscarArticuloEnIndice, buscarEnItems]
        decide)

/-- C3 counterexample: the source's `includes` match is case-sensitive.
An all-uppercase label "ARTÍCULO 51" is NOT found for the query "51"
(the claim's own example), while the mixed-case label is; the only
difference between the two inputs is letter case. -/
theorem c3_contraejemplo_mayusculas :
    buscarArticuloEnIndice ⟨some [Item.mk "articulo" (some "ARTÍCULO 51") "a51" none]⟩ "51" = none
    ∧ buscarArticuloEnIndice ⟨some [Item.mk "articulo" (some "Artículo 51") "a51" none]⟩ "51"
        = some (Item.mk "articulo" (some "Artículo 51") "a51" none)
    ∧ incluye "ARTÍCULO 51" "Artículo 51" = false
    ∧ incluye "Artículo 51" "Artículo 51" = true := by
  refine ⟨?_, ?_, by decide, by decide⟩ <;>
    (simp [buscarArticuloEnIndice, buscarEnItems]
     decide)

/-- C3 as amended: the Index Locator returns the first entry, in
depth-first pre-order, whose kind tag is "articulo" and whose label
contains the literal substring "Artículo " followed by the number — the
containment being case-SENSITIVE (`coincide` is built on `incluye`, the
embedding of JS `String.prototype.includes`). -/
theorem c3_localizador_primera_coincidencia_literal (ind : Indice) (numeroArticulo : String) :
    buscarArticuloEnIndice ind numeroArticulo
      = (preorden (ind.items.getD [])).find? (coincide numeroArticulo) :=
  buscarEnItems_eq_find? numeroArticulo (ind.items.getD [])

/-- C4: on a tree with two or more matching nodes, the locator returns
the one visited first in depth-first pre-order (the head of the filtered
pre-order flattening): each node is tested before its children, children
in stored order, and traversal stops at the first match. -/
theorem c4_preorden_primero (ind : Indice) (numeroArticulo : String)
    (_h : 2 ≤ ((preorden (ind.items.getD [])).filter (coincide numeroArticulo)).length) :
    buscarArticuloEnIndice ind numeroArticulo
      = ((preorden (ind.items.getD [])).filter (coincide numeroArticulo)).head? := by
  rw [show buscarArticuloEnIndice ind numeroArticulo
        = buscarEnItems numeroArticulo (ind.items.getD []) from rfl,
    buscarEnItems_eq_find?, find?_eq_head?_filter]

/-- Witness for C4: an index with two matching entries ("Artículo 7" is a
substring of both labels); the first one in pre-order is returned. -/
theorem c4_preorden_primero_witness :
    2 ≤ ((preorden [Item.mk "articulo" (some "Artículo 7") "a7" none,
                    Item.mk "articulo" (some "Artículo 7 bis") "a7b" none]).filter
          (coincide "7")).length
    ∧ buscarArticuloEnIndice
        ⟨some [Item.mk "articulo" (some "Artículo 7") "a7" none,
               Item.mk "articulo" (some "Artículo 7 bis") "a7b" none]⟩ "7"
      = ((preorden [Item.mk "articulo" (some "Artículo 7") "a7" none,
                    Item.mk "articulo" (some "Artículo 7 bis") "a7b" none]).filter
          (coincide "7")).head? := by
  have h2 : 2 ≤ ((preorden [Item.mk "articulo" (some "Artículo 7") "a7" none,
      Item.mk "articulo" (some "Artículo 7 bis") "a7b" none]).filter (coincide "7")).length := by
    simp [preorden]
    decide
  exact ⟨h2, c4_preorden_primero
    ⟨some [Item.mk "articulo" (some "Artículo 7") "a7" none,
           Item.mk "articulo" (some "Artículo 7 bis") "a7b" none]⟩ "7" h2⟩

/-- C9: the locator is total (always a node or `none`); a node whose
label field is absent never matches; a node with no children field
behaves as a leaf — the search either returns that node on a match or
moves on to its siblings, descending into nothing. -/
theorem c9_localizador_total_campos_ausentes (numeroArticulo tipo id : String)
    (c : Option (List Item)) (titulo : Option String) (rest : List Item) (ind : Indice) :
    coincide numeroArticulo (Item.mk tipo none id c) = false
    ∧ buscarEnItems numeroArticulo (Item.mk tipo titulo id none :: rest)
        = (if coincide numeroArticulo (Item.mk tipo titulo id none)
           then some (Item.mk tipo titulo id none)
           else buscarEnItems numeroArticulo rest)
    ∧ ((buscarArticuloEnIndice ind numeroArticulo).isSome
        || (buscarArticuloEnIndice ind numeroArticulo).isNone) = true := by
  refine ⟨?_, buscarEnItems.eq_3 numeroArticulo tipo titulo id rest, ?_⟩
  · simp [coincide, Item.tipo, Item.titulo]
  · cases buscarArticuloEnIndice ind numeroArticulo <;> rfl

/-- C10: because the match is plain substring containment, the query "5"
also matches the label "Artículo 51"; with the article-51 entry first in
pre-order and a genuine article-5 entry after it, the locator returns the
article-51 entry even though the article-5 node also matches. -/
theorem c10_prefijo_captura_otro_articulo :
    buscarArticuloEnIndice
      ⟨some [Item.mk "articulo" (some "Artículo 51") "a51" none,
             Item.mk "articulo" (some "Artículo 5") "a5" none]⟩ "5"
      = some (Item.mk "articulo" (some "Artículo 51") "a51" none)
    ∧ coincide "5" (Item.mk "articulo" (some "Artículo 51") "a51" none) = true
    ∧ coincide "5" (Item.mk "articulo" (some "Artículo 5") "a5" none) = true := by
  refine ⟨?_, by decide, by decide⟩
  simp [buscarArticuloEnIndice, buscarEnItems]
  decide

end BOE
